import Mathlib

/-!
Shallow embedding of 3Dmath.h, a small C header of 3D math utilities
(3-component vectors and row-major 3x3 / 4x4 matrices), over the exact
real numbers.  Scalars (C `seFloat`, i.e. `float`) are modelled as `ℝ`;
`sqrtf`, `cos`, `sin`, `tan` become `Real.sqrt`, `Real.cos`, `Real.sin`,
`Real.tan`.  The `memset`-based byte fill of `seM4Fill` is modelled at
the byte level through an IEEE-754 binary32 decoder, since its behaviour
for nonzero arguments is exactly the point at issue.
-/

namespace ThreeDMath

/-- the constant `SE_PI` of the header, `3.14159265358979323846f`. -/
noncomputable def SE_PI : ℝ := 3.14159265358979323846

/-- the macro `SE_DEG2RAD(n) (n*(SE_PI/180.0f))`. -/
noncomputable def SE_DEG2RAD (n : ℝ) : ℝ := n * (SE_PI / 180)

/-- the C struct `seVec3`: three scalar components x, y, z. -/
@[ext]
structure seVec3 where
  x : ℝ
  y : ℝ
  z : ℝ

/-- the C struct `seMat3`: nine scalars, row-major (element (r,c) at index r*3+c).
The flat array `e[9]` is modelled as nine fields `e0`..`e8`. -/
@[ext]
structure seMat3 where
  e0 : ℝ
  e1 : ℝ
  e2 : ℝ
  e3 : ℝ
  e4 : ℝ
  e5 : ℝ
  e6 : ℝ
  e7 : ℝ
  e8 : ℝ

/-- the C struct `seMat4`: sixteen scalars, row-major (element (r,c) at index r*4+c).
The flat array `e[16]` is modelled as sixteen fields `e0`..`e15`. -/
@[ext]
structure seMat4 where
  e0 : ℝ
  e1 : ℝ
  e2 : ℝ
  e3 : ℝ
  e4 : ℝ
  e5 : ℝ
  e6 : ℝ
  e7 : ℝ
  e8 : ℝ
  e9 : ℝ
  e10 : ℝ
  e11 : ℝ
  e12 : ℝ
  e13 : ℝ
  e14 : ℝ
  e15 : ℝ

/-- `seV3Assign`: returns a vector with the specified component values. -/
def seV3Assign (x y z : ℝ) : seVec3 := ⟨x, y, z⟩

/-- `seV3Length`: `sqrtf(SE_SQUARED(v.x) + SE_SQUARED(v.y) + SE_SQUARED(v.z))`. -/
noncomputable def seV3Length (v : seVec3) : ℝ :=
  Real.sqrt (v.x * v.x + v.y * v.y + v.z * v.z)

/-- `seV3Dot`: `(v1.x * v2.x) + (v1.y * v2.y) + (v1.z * v2.z)`. -/
def seV3Dot (v1 v2 : seVec3) : ℝ :=
  (v1.x * v2.x) + (v1.y * v2.y) + (v1.z * v2.z)

/-- `seV3Cross`: right-handed cross product of two 3D vectors. -/
def seV3Cross (v1 v2 : seVec3) : seVec3 :=
  ⟨(v1.y * v2.z) - (v1.z * v2.y),
   (v1.z * v2.x) - (v1.x * v2.z),
   (v1.x * v2.y) - (v1.y * v2.x)⟩

/-- `seV3Normalize`: each component divided by `seV3Length v`
(division by zero is total in `ℝ`; the C code divides by `0.0f` there). -/
noncomputable def seV3Normalize (v : seVec3) : seVec3 :=
  let len := seV3Length v
  ⟨v.x / len, v.y / len, v.z / len⟩

/-- `seV3Scale`: normalizes `v`, then multiplies each component by `len`. -/
noncomputable def seV3Scale (v : seVec3) (len : ℝ) : seVec3 :=
  let n := seV3Normalize v
  ⟨n.x * len, n.y * len, n.z * len⟩

/-- `seV3Add`: component-wise sum. -/
def seV3Add (v1 v2 : seVec3) : seVec3 :=
  ⟨v1.x + v2.x, v1.y + v2.y, v1.z + v2.z⟩

/-- `seV3Subtract`: component-wise difference. -/
def seV3Subtract (v1 v2 : seVec3) : seVec3 :=
  ⟨v1.x - v2.x, v1.y - v2.y, v1.z - v2.z⟩

/-- `seV3MultiplyM3`: product of a 3x3 matrix (row-major) and a vector. -/
def seV3MultiplyM3 (m : seMat3) (v : seVec3) : seVec3 :=
  ⟨(m.e0 * v.x) + (m.e1 * v.y) + (m.e2 * v.z),
   (m.e3 * v.x) + (m.e4 * v.y) + (m.e5 * v.z),
   (m.e6 * v.x) + (m.e7 * v.y) + (m.e8 * v.z)⟩

/-- C float-to-int conversion (truncation toward zero), used when the
`seFloat` argument of `seM4Fill` is passed to `memset`, whose second
parameter has type `int`. -/
noncomputable def ctrunc (n : ℝ) : ℤ :=
  if 0 ≤ n then ⌊n⌋ else ⌈n⌉

/-- the byte that `memset` writes: the `int` argument converted to
`unsigned char`, i.e. reduced modulo 256. -/
noncomputable def fillByte (n : ℝ) : ℕ :=
  (ctrunc n % 256).toNat

/-- value of an IEEE-754 binary32 bit pattern, as an exact real number.
Non-finite patterns (exponent field 255: infinities and NaNs) have no
real value and are mapped to 0; they are outside the domain this
embedding reasons about. -/
noncomputable def float32OfBits (b : ℕ) : ℝ :=
  let sgn : ℕ := b / 2 ^ 31 % 2
  let ex : ℕ := b / 2 ^ 23 % 2 ^ 8
  let frac : ℕ := b % 2 ^ 23
  let mag : ℝ :=
    if ex = 0 then ((frac : ℝ) / 2 ^ 23) * (2 : ℝ) ^ (-(126 : ℤ))
    else if ex = 255 then 0
    else (1 + (frac : ℝ) / 2 ^ 23) * (2 : ℝ) ^ ((ex : ℤ) - 127)
  if sgn = 1 then -mag else mag

/-- `seM4Fill`: `memset(&out.e, n, sizeof(out.e))` fills every byte of the
16-float array with `fillByte n`, so every element holds the binary32
value of that byte repeated four times (`0x01010101 * fillByte n`). -/
noncomputable def seM4Fill (n : ℝ) : seMat4 :=
  let b := float32OfBits (fillByte n * 0x01010101)
  ⟨b, b, b, b, b, b, b, b, b, b, b, b, b, b, b, b⟩

/-- `seM4Multiply`: the 4x4 row-major product A*B, element by element
exactly as written in the source. -/
def seM4Multiply (A B : seMat4) : seMat4 :=
  ⟨(A.e0 * B.e0) + (A.e1 * B.e4) + (A.e2 * B.e8) + (A.e3 * B.e12),
   (A.e0 * B.e1) + (A.e1 * B.e5) + (A.e2 * B.e9) + (A.e3 * B.e13),
   (A.e0 * B.e2) + (A.e1 * B.e6) + (A.e2 * B.e10) + (A.e3 * B.e14),
   (A.e0 * B.e3) + (A.e1 * B.e7) + (A.e2 * B.e11) + (A.e3 * B.e15),
   (A.e4 * B.e0) + (A.e5 * B.e4) + (A.e6 * B.e8) + (A.e7 * B.e12),
   (A.e4 * B.e1) + (A.e5 * B.e5) + (A.e6 * B.e9) + (A.e7 * B.e13),
   (A.e4 * B.e2) + (A.e5 * B.e6) + (A.e6 * B.e10) + (A.e7 * B.e14),
   (A.e4 * B.e3) + (A.e5 * B.e7) + (A.e6 * B.e11) + (A.e7 * B.e15),
   (A.e8 * B.e0) + (A.e9 * B.e4) + (A.e10 * B.e8) + (A.e11 * B.e12),
   (A.e8 * B.e1) + (A.e9 * B.e5) + (A.e10 * B.e9) + (A.e11 * B.e13),
   (A.e8 * B.e2) + (A.e9 * B.e6) + (A.e10 * B.e10) + (A.e11 * B.e14),
   (A.e8 * B.e3) + (A.e9 * B.e7) + (A.e10 * B.e11) + (A.e11 * B.e15),
   (A.e12 * B.e0) + (A.e13 * B.e4) + (A.e14 * B.e8) + (A.e15 * B.e12),
   (A.e12 * B.e1) + (A.e13 * B.e5) + (A.e14 * B.e9) + (A.e15 * B.e13),
   (A.e12 * B.e2) + (A.e13 * B.e6) + (A.e14 * B.e10) + (A.e15 * B.e14),
   (A.e12 * B.e3) + (A.e13 * B.e7) + (A.e14 * B.e11) + (A.e15 * B.e15)⟩

/-- `seM4Perspective`: `ct = 1.0f / tan(angle / 2.0f)`, start from
`seM4Fill 0`, then overwrite entries 0, 5, 10, 11, 14. -/
noncomputable def seM4Perspective (angle ratio near far : ℝ) : seMat4 :=
  let ct := 1 / Real.tan (angle / 2)
  let out := seM4Fill 0
  { out with
    e0 := ct / ratio
    e5 := ct
    e10 := (far + near) / (near - far)
    e11 := (2 * far * near) / (near - far)
    e14 := -1 }

/-- `seM4LookAt`: front/side/up frame from eye, center, up, written into
the sixteen entries exactly as in the source. -/
noncomputable def seM4LookAt (eye center up : seVec3) : seMat4 :=
  let f := seV3Normalize (seV3Subtract center eye)
  let s := seV3Normalize (seV3Cross f up)
  let u := seV3Cross s f
  ⟨s.x, s.y, s.z, -(seV3Dot s eye),
   u.x, u.y, u.z, -(seV3Dot u eye),
   -f.x, -f.y, -f.z, seV3Dot f eye,
   0, 0, 0, 1⟩

/-- `seM4Identity`: `seM4Fill 0` with entries 0, 5, 10, 15 set to 1. -/
noncomputable def seM4Identity : seMat4 :=
  let out := seM4Fill 0
  { out with e0 := 1, e5 := 1, e10 := 1, e15 := 1 }

/-- `seM4Scale`: `seM4Fill 0` with the diagonal set to (x, y, z, 1). -/
noncomputable def seM4Scale (x y z : ℝ) : seMat4 :=
  let out := seM4Fill 0
  { out with e0 := x, e5 := y, e10 := z, e15 := 1 }

/-- `seM4Translate`: `seM4Fill 0` with entries 3, 7, 11 set to x, y, z
and the diagonal set to 1. -/
noncomputable def seM4Translate (x y z : ℝ) : seMat4 :=
  let out := seM4Fill 0
  { out with e3 := x, e7 := y, e11 := z, e0 := 1, e5 := 1, e10 := 1, e15 := 1 }

/-- `seM4RotateEuler`: Euler rotation from three angles in degrees,
converted with `SE_DEG2RAD`, entries exactly as in the source. -/
noncomputable def seM4RotateEuler (x y z : ℝ) : seMat4 :=
  let cx := Real.cos (SE_DEG2RAD x)
  let sx := Real.sin (SE_DEG2RAD x)
  let cy := Real.cos (SE_DEG2RAD y)
  let sy := Real.sin (SE_DEG2RAD y)
  let cz := Real.cos (SE_DEG2RAD z)
  let sz := Real.sin (SE_DEG2RAD z)
  ⟨cy * cz, -cy * sz, sy, 0,
   sx * sy * cz + cx * sz, -sx * sy * sz + cx * cz, -sx * cy, 0,
   -cx * sy * cz + sx * sz, cx * sy * sz + sx * cz, cx * cy, 0,
   0, 0, 0, 1⟩

/-- Modelled from the spec: `seM4Rotate` is declared in the header's
prototype list and called by `seM4RotateEulerV3`, but no definition for
it appears anywhere in the source.  The spec's rotateEuler(x, y, z)
(three Euler angles in degrees) is the evident intent of the prototype,
so it is modelled as `seM4RotateEuler`. -/
noncomputable def seM4Rotate (x y z : ℝ) : seMat4 := seM4RotateEuler x y z

/-- `seM4RotateEulerV3`: `return seM4Rotate(v.x, v.y, v.z)`. -/
noncomputable def seM4RotateEulerV3 (v : seVec3) : seMat4 :=
  seM4Rotate v.x v.y v.z

/-- `seM4RotateAA`: axis-angle rotation; the axis is normalized and the
angle in degrees is scaled by the literal `0.01745329251f` (the source's
hard-coded value of pi/180), entries exactly as in the source. -/
noncomputable def seM4RotateAA (v : seVec3) (t : ℝ) : seMat4 :=
  let n := seV3Normalize v
  let c := Real.cos (t * 0.01745329251)
  let s := Real.sin (t * 0.01745329251)
  ⟨c + n.x * n.x * (1 - c), -n.z * s + n.x * n.y * (1 - c), n.y * s + n.x * n.z * (1 - c), 0,
   n.z * s + n.y * n.x * (1 - c), c + n.y * n.y * (1 - c), -n.x * s + n.y * n.z * (1 - c), 0,
   -n.y * s + n.z * n.x * (1 - c), n.x * s + n.z * n.y * (1 - c), c + n.z * n.z * (1 - c), 0,
   0, 0, 0, 1⟩

/-! Spec-side definitions, written from the spec's and claims' words, to
be compared with the source-side definitions above. -/

/-- first row of the upper-left 3x3 block of a 4x4 matrix (row-major). -/
def seM4Row0 (m : seMat4) : seVec3 := ⟨m.e0, m.e1, m.e2⟩

/-- second row of the upper-left 3x3 block of a 4x4 matrix (row-major). -/
def seM4Row1 (m : seMat4) : seVec3 := ⟨m.e4, m.e5, m.e6⟩

/-- third row of the upper-left 3x3 block of a 4x4 matrix (row-major). -/
def seM4Row2 (m : seMat4) : seVec3 := ⟨m.e8, m.e9, m.e10⟩

/-- the upper-left 3x3 block of a 4x4 matrix (row-major). -/
def upperLeft3 (m : seMat4) : seMat3 :=
  ⟨m.e0, m.e1, m.e2, m.e4, m.e5, m.e6, m.e8, m.e9, m.e10⟩

/-- standard single-axis rotation about the x axis (angle in radians),
acting on column vectors. -/
noncomputable def specRotX (a : ℝ) : seMat3 :=
  ⟨1, 0, 0,
   0, Real.cos a, -Real.sin a,
   0, Real.sin a, Real.cos a⟩

/-- standard single-axis rotation about the y axis (angle in radians),
acting on column vectors. -/
noncomputable def specRotY (a : ℝ) : seMat3 :=
  ⟨Real.cos a, 0, Real.sin a,
   0, 1, 0,
   -Real.sin a, 0, Real.cos a⟩

/-- standard single-axis rotation about the z axis (angle in radians),
acting on column vectors. -/
noncomputable def specRotZ (a : ℝ) : seMat3 :=
  ⟨Real.cos a, -Real.sin a, 0,
   Real.sin a, Real.cos a, 0,
   0, 0, 1⟩

/-- spec-side 3x3 matrix product (row-major); the source itself has no
3x3 matrix multiplication. -/
def specM3Mul (A B : seMat3) : seMat3 :=
  ⟨A.e0 * B.e0 + A.e1 * B.e3 + A.e2 * B.e6,
   A.e0 * B.e1 + A.e1 * B.e4 + A.e2 * B.e7,
   A.e0 * B.e2 + A.e1 * B.e5 + A.e2 * B.e8,
   A.e3 * B.e0 + A.e4 * B.e3 + A.e5 * B.e6,
   A.e3 * B.e1 + A.e4 * B.e4 + A.e5 * B.e7,
   A.e3 * B.e2 + A.e4 * B.e5 + A.e5 * B.e8,
   A.e6 * B.e0 + A.e7 * B.e3 + A.e8 * B.e6,
   A.e6 * B.e1 + A.e7 * B.e4 + A.e8 * B.e7,
   A.e6 * B.e2 + A.e7 * B.e5 + A.e8 * B.e8⟩

/-- spec-side scalar multiple of a 3x3 matrix. -/
def specM3Smul (k : ℝ) (A : seMat3) : seMat3 :=
  ⟨k * A.e0, k * A.e1, k * A.e2,
   k * A.e3, k * A.e4, k * A.e5,
   k * A.e6, k * A.e7, k * A.e8⟩

/-- spec-side entrywise sum of 3x3 matrices. -/
def specM3Add (A B : seMat3) : seMat3 :=
  ⟨A.e0 + B.e0, A.e1 + B.e1, A.e2 + B.e2,
   A.e3 + B.e3, A.e4 + B.e4, A.e5 + B.e5,
   A.e6 + B.e6, A.e7 + B.e7, A.e8 + B.e8⟩

/-- spec-side 3x3 identity matrix. -/
def specM3Id : seMat3 := ⟨1, 0, 0, 0, 1, 0, 0, 0, 1⟩

/-- spec-side outer product v ⊗ w of two vectors, as a 3x3 matrix. -/
def specOuter (v w : seVec3) : seMat3 :=
  ⟨v.x * w.x, v.x * w.y, v.x * w.z,
   v.y * w.x, v.y * w.y, v.y * w.z,
   v.z * w.x, v.z * w.y, v.z * w.z⟩

/-- spec-side cross-product matrix [v]x of a vector, so that
[v]x * w = cross v w for column vectors w. -/
def specCrossMat (v : seVec3) : seMat3 :=
  ⟨0, -v.z, v.y,
   v.z, 0, -v.x,
   -v.y, v.x, 0⟩

/-- spec-side Rodrigues rotation matrix R = I*c + (v ⊗ v)*(1-c) + [v]x*s,
assembled from its three terms exactly as the spec words it. -/
def specRodrigues (v : seVec3) (c s : ℝ) : seMat3 :=
  specM3Add (specM3Add (specM3Smul c specM3Id)
    (specM3Smul (1 - c) (specOuter v v))) (specM3Smul s (specCrossMat v))

/-- componentwise negation of a vector (used to speak about the row
`-front` of the look-at matrix). -/
def seV3Neg (v : seVec3) : seVec3 := ⟨-v.x, -v.y, -v.z⟩

/-! Basic evaluation lemmas for the byte-fill model. -/

/-- The int conversion of the real number 0 is 0. -/
theorem ctrunc_zero : ctrunc 0 = 0 := by
  simp [ctrunc]

/-- The memset byte for argument 0 is the zero byte. -/
theorem fillByte_zero : fillByte 0 = 0 := by
  simp [fillByte, ctrunc_zero]

/-- The all-zero bit pattern decodes to the real number 0. -/
theorem float32OfBits_zero : float32OfBits 0 = 0 := by
  simp [float32OfBits]

/-- `seM4Fill 0` is the all-zero matrix. -/
theorem seM4Fill_zero : seM4Fill 0 = ⟨0, 0, 0, 0, 0, 0, 0, 0, 0, 0, 0, 0, 0, 0, 0, 0⟩ := by
  simp [seM4Fill, fillByte_zero, float32OfBits_zero]

/-! General lemmas about the vector operations. -/

/-- The dot product is commutative. -/
theorem seV3Dot_comm (a b : seVec3) : seV3Dot a b = seV3Dot b a := by
  simp only [seV3Dot]; ring

/-- A vector dotted with itself is nonnegative. -/
theorem seV3Dot_self_nonneg (v : seVec3) : 0 ≤ seV3Dot v v := by
  simp only [seV3Dot]
  nlinarith [mul_self_nonneg v.x, mul_self_nonneg v.y, mul_self_nonneg v.z]

/-- A nonzero vector dotted with itself is positive. -/
theorem seV3Dot_self_pos (v : seVec3) (h : v ≠ seV3Assign 0 0 0) :
    0 < seV3Dot v v := by
  rcases lt_or_eq_of_le (seV3Dot_self_nonneg v) with hlt | heq
  · exact hlt
  · exfalso
    apply h
    have hsum : v.x * v.x + v.y * v.y + v.z * v.z = 0 := by
      simpa [seV3Dot] using heq.symm
    have hx : v.x = 0 := mul_self_eq_zero.mp (le_antisymm
      (by nlinarith [mul_self_nonneg v.y, mul_self_nonneg v.z]) (mul_self_nonneg v.x))
    have hy : v.y = 0 := mul_self_eq_zero.mp (le_antisymm
      (by nlinarith [mul_self_nonneg v.x, mul_self_nonneg v.z]) (mul_self_nonneg v.y))
    have hz : v.z = 0 := mul_self_eq_zero.mp (le_antisymm
      (by nlinarith [mul_self_nonneg v.x, mul_self_nonneg v.y]) (mul_self_nonneg v.z))
    ext <;> simp [seV3Assign, hx, hy, hz]

/-- The length squared is the dot product with itself. -/
theorem seV3Length_mul_self (v : seVec3) :
    seV3Length v * seV3Length v = seV3Dot v v := by
  simp only [seV3Length, seV3Dot]
  exact Real.mul_self_sqrt (by nlinarith [mul_self_nonneg v.x, mul_self_nonneg v.y, mul_self_nonneg v.z])

/-- A nonzero vector has positive length. -/
theorem seV3Length_pos (v : seVec3) (h : v ≠ seV3Assign 0 0 0) :
    0 < seV3Length v := by
  have hpos := seV3Dot_self_pos v h
  simp only [seV3Length]
  apply Real.sqrt_pos.mpr
  simpa [seV3Dot] using hpos

/-- Dot product with a normalized first argument, as a division. -/
theorem seV3Normalize_dot_left (v w : seVec3) :
    seV3Dot (seV3Normalize v) w = seV3Dot v w / seV3Length v := by
  simp only [seV3Normalize, seV3Dot]
  ring

/-- A normalized nonzero vector has unit dot product with itself. -/
theorem seV3Normalize_dot_self (v : seVec3) (h : v ≠ seV3Assign 0 0 0) :
    seV3Dot (seV3Normalize v) (seV3Normalize v) = 1 := by
  have key : seV3Dot (seV3Normalize v) (seV3Normalize v) =
      seV3Dot v v / (seV3Length v * seV3Length v) := by
    simp only [seV3Normalize, seV3Dot]
    ring
  rw [key, seV3Length_mul_self]
  exact div_self (ne_of_gt (seV3Dot_self_pos v h))

/-- The cross product is orthogonal to its first factor. -/
theorem seV3Cross_dot_left (a b : seVec3) : seV3Dot (seV3Cross a b) a = 0 := by
  simp only [seV3Cross, seV3Dot]; ring

/-- The cross product is orthogonal to its second factor. -/
theorem seV3Cross_dot_right (a b : seVec3) : seV3Dot (seV3Cross a b) b = 0 := by
  simp only [seV3Cross, seV3Dot]; ring

/-- A vector is orthogonal to a cross product it is a factor of. -/
theorem seV3Dot_cross_self (a b : seVec3) : seV3Dot a (seV3Cross a b) = 0 := by
  simp only [seV3Cross, seV3Dot]; ring

/-- Lagrange identity for the squared norm of a cross product. -/
theorem seV3Cross_dot_cross (a b : seVec3) :
    seV3Dot (seV3Cross a b) (seV3Cross a b) =
      seV3Dot a a * seV3Dot b b - seV3Dot a b * seV3Dot a b := by
  simp only [seV3Cross, seV3Dot]; ring

/-- Negation moves out of a dot product on the left. -/
theorem seV3Neg_dot (a b : seVec3) : seV3Dot (seV3Neg a) b = -seV3Dot a b := by
  simp only [seV3Neg, seV3Dot]; ring

/-- Negation moves out of a dot product on the right. -/
theorem seV3Dot_neg_right (a b : seVec3) : seV3Dot a (seV3Neg b) = -seV3Dot a b := by
  simp only [seV3Neg, seV3Dot]; ring

/-- Negating both arguments leaves a dot product unchanged. -/
theorem seV3Neg_dot_neg (a b : seVec3) :
    seV3Dot (seV3Neg a) (seV3Neg b) = seV3Dot a b := by
  simp only [seV3Neg, seV3Dot]; ring

/-! Rows of the look-at matrix. -/

/-- The first row of the look-at 3x3 block is the side vector. -/
theorem seM4LookAt_row0 (eye center up : seVec3) :
    seM4Row0 (seM4LookAt eye center up) =
      seV3Normalize (seV3Cross (seV3Normalize (seV3Subtract center eye)) up) := rfl

/-- The second row of the look-at 3x3 block is the recomputed up vector. -/
theorem seM4LookAt_row1 (eye center up : seVec3) :
    seM4Row1 (seM4LookAt eye center up) =
      seV3Cross (seV3Normalize (seV3Cross (seV3Normalize (seV3Subtract center eye)) up))
        (seV3Normalize (seV3Subtract center eye)) := rfl

/-- The third row of the look-at 3x3 block is the negated front vector. -/
theorem seM4LookAt_row2 (eye center up : seVec3) :
    seM4Row2 (seM4LookAt eye center up) =
      seV3Neg (seV3Normalize (seV3Subtract center eye)) := rfl

/-! Claim theorems. -/

/-- C2: for all angles x, y, z in degrees, the upper-left 3x3 block of
seM4RotateEuler x y z is the product Rx(x')*Ry(y')*Rz(z') of the three
standard single-axis rotation matrices at the radian-converted angles
(so the z rotation acts first on a column vector, then y, then x), and
the fourth column and bottom row are (0,0,0) and (0,0,0,1). -/
theorem claim_C2_rotateEuler_product (x y z : ℝ) :
    upperLeft3 (seM4RotateEuler x y z) =
      specM3Mul (specRotX (SE_DEG2RAD x))
        (specM3Mul (specRotY (SE_DEG2RAD y)) (specRotZ (SE_DEG2RAD z))) ∧
    (seM4RotateEuler x y z).e3 = 0 ∧ (seM4RotateEuler x y z).e7 = 0 ∧
    (seM4RotateEuler x y z).e11 = 0 ∧ (seM4RotateEuler x y z).e12 = 0 ∧
    (seM4RotateEuler x y z).e13 = 0 ∧ (seM4RotateEuler x y z).e14 = 0 ∧
    (seM4RotateEuler x y z).e15 = 1 := by
  refine ⟨?_, rfl, rfl, rfl, rfl, rfl, rfl, rfl⟩
  ext <;>
    simp only [upperLeft3, seM4RotateEuler, specM3Mul, specRotX, specRotY, specRotZ] <;>
    ring

/-- C3: seM4LookAt places side, trueUp and -front (with front, side,
trueUp computed by normalize/cross/subtract as in the claim) as the rows
of its upper-left 3x3 block, puts -dot(side,eye), -dot(trueUp,eye),
+dot(front,eye) at row-major indices 3, 7, 11, and (0,0,0,1) in the
bottom row. -/
theorem claim_C3_lookAt_layout (eye center up : seVec3) :
    seM4Row0 (seM4LookAt eye center up) =
      seV3Normalize (seV3Cross (seV3Normalize (seV3Subtract center eye)) up) ∧
    seM4Row1 (seM4LookAt eye center up) =
      seV3Cross (seV3Normalize (seV3Cross (seV3Normalize (seV3Subtract center eye)) up))
        (seV3Normalize (seV3Subtract center eye)) ∧
    seM4Row2 (seM4LookAt eye center up) =
      seV3Neg (seV3Normalize (seV3Subtract center eye)) ∧
    (seM4LookAt eye center up).e3 =
      -seV3Dot (seV3Normalize (seV3Cross (seV3Normalize (seV3Subtract center eye)) up)) eye ∧
    (seM4LookAt eye center up).e7 =
      -seV3Dot (seV3Cross (seV3Normalize (seV3Cross (seV3Normalize (seV3Subtract center eye)) up))
        (seV3Normalize (seV3Subtract center eye))) eye ∧
    (seM4LookAt eye center up).e11 =
      seV3Dot (seV3Normalize (seV3Subtract center eye)) eye ∧
    (seM4LookAt eye center up).e12 = 0 ∧ (seM4LookAt eye center up).e13 = 0 ∧
    (seM4LookAt eye center up).e14 = 0 ∧ (seM4LookAt eye center up).e15 = 1 :=
  ⟨rfl, rfl, rfl, rfl, rfl, rfl, rfl, rfl, rfl, rfl⟩

/-- C4: seM4Perspective angle ratio near far (angle taken as radians, no
degree conversion) has entry (0,0) equal to (1/tan(angle/2))/ratio,
entry (1,1) equal to 1/tan(angle/2), entry (2,2) equal to
(far+near)/(near-far), entry (2,3) equal to (2*far*near)/(near-far),
entry (3,2) equal to -1, and every other entry equal to 0. -/
theorem claim_C4_perspective_entries (angle ratio near far : ℝ) :
    seM4Perspective angle ratio near far =
      ⟨(1 / Real.tan (angle / 2)) / ratio, 0, 0, 0,
       0, 1 / Real.tan (angle / 2), 0, 0,
       0, 0, (far + near) / (near - far), (2 * far * near) / (near - far),
       0, 0, -1, 0⟩ := by
  simp [seM4Perspective, seM4Fill_zero]

/-- C5: for every axis v and degree angle t, the upper-left 3x3 block of
seM4RotateAA v t is the Rodrigues matrix I*c + (n tensor n)*(1-c) + [n]x*s
built from the normalized axis n and the cosine and sine of the
radian-converted angle, and the fourth column and bottom row are
(0,0,0) and (0,0,0,1). -/
theorem claim_C5_rotateAA_rodrigues (v : seVec3) (t : ℝ) :
    upperLeft3 (seM4RotateAA v t) =
      specRodrigues (seV3Normalize v)
        (Real.cos (t * 0.01745329251)) (Real.sin (t * 0.01745329251)) ∧
    (seM4RotateAA v t).e3 = 0 ∧ (seM4RotateAA v t).e7 = 0 ∧
    (seM4RotateAA v t).e11 = 0 ∧ (seM4RotateAA v t).e12 = 0 ∧
    (seM4RotateAA v t).e13 = 0 ∧ (seM4RotateAA v t).e14 = 0 ∧
    (seM4RotateAA v t).e15 = 1 := by
  refine ⟨?_, rfl, rfl, rfl, rfl, rfl, rfl, rfl⟩
  ext <;>
    simp only [upperLeft3, seM4RotateAA, specRodrigues, specM3Add, specM3Smul,
      specM3Id, specOuter, specCrossMat, seV3Normalize] <;>
    ring

/-- C6: multiplying by seM4Identity on either side returns the other
matrix unchanged. -/
theorem claim_C6_identity_neutral (M : seMat4) :
    seM4Multiply seM4Identity M = M ∧ seM4Multiply M seM4Identity = M := by
  have h : seM4Identity = ⟨1, 0, 0, 0, 0, 1, 0, 0, 0, 0, 1, 0, 0, 0, 0, 1⟩ := by
    simp [seM4Identity, seM4Fill_zero]
  constructor <;> (rw [h]; ext <;> simp [seM4Multiply])

/-- C8: seM4Multiply is associative over the exact arithmetic of the
embedding. -/
theorem claim_C8_multiply_assoc (A B C : seMat4) :
    seM4Multiply (seM4Multiply A B) C = seM4Multiply A (seM4Multiply B C) := by
  ext <;> simp only [seM4Multiply] <;> ring

/-- C9: the vector-argument Euler entry point returns the same matrix as
the three-scalar seM4RotateEuler applied to the components (with the
undefined seM4Rotate modelled from the spec as seM4RotateEuler). -/
theorem claim_C9_eulerV3_delegates (v : seVec3) :
    seM4RotateEulerV3 v = seM4RotateEuler v.x v.y v.z := rfl

/-- C1 counterexample: seM4Fill 1 does not set element 0 to 1, because
the memset byte-fill stores the byte 0x01 in each of its four bytes,
which decodes to a tiny subnormal-adjacent value, not to 1. -/
theorem claim_C1_counterexample : (seM4Fill 1).e0 ≠ 1 := by
  have hb : fillByte 1 = 1 := by
    norm_num [fillByte, ctrunc]
  have h : (seM4Fill 1).e0 =
      (1 + (65793 : ℝ) / 2 ^ 23) * (2 : ℝ) ^ ((2 : ℤ) - 127) := by
    simp only [seM4Fill, hb]
    norm_num [float32OfBits]
  have hlt : (1 + (65793 : ℝ) / 2 ^ 23) * (2 : ℝ) ^ ((2 : ℤ) - 127) < 1 := by
    have he : ((2 : ℤ) - 127) = -(125 : ℤ) := by norm_num
    rw [he, zpow_neg, show ((125 : ℤ)) = ((125 : ℕ) : ℤ) from rfl, zpow_natCast]
    norm_num
  rw [h]
  exact ne_of_lt hlt

/-- C1 (amended): the byte-fill of seM4Fill writes the raw byte pattern
of the truncated argument, so every element equals the argument exactly
in the n = 0 case: seM4Fill 0 is the all-zero matrix. -/
theorem claim_C1_fill_zero : seM4Fill 0 = ⟨0, 0, 0, 0, 0, 0, 0, 0, 0, 0, 0, 0, 0, 0, 0, 0⟩ :=
  seM4Fill_zero

/-- C10: when center - eye is nonzero and the cross product of the
normalized front vector with up is nonzero, the three rows of the
upper-left 3x3 block of seM4LookAt are pairwise orthogonal and each of
unit length, exactly, over the embedded exact arithmetic. -/
theorem claim_C10_lookAt_orthonormal (eye center up : seVec3)
    (h1 : seV3Subtract center eye ≠ seV3Assign 0 0 0)
    (h2 : seV3Cross (seV3Normalize (seV3Subtract center eye)) up ≠ seV3Assign 0 0 0) :
    seV3Dot (seM4Row0 (seM4LookAt eye center up)) (seM4Row1 (seM4LookAt eye center up)) = 0 ∧
    seV3Dot (seM4Row0 (seM4LookAt eye center up)) (seM4Row2 (seM4LookAt eye center up)) = 0 ∧
    seV3Dot (seM4Row1 (seM4LookAt eye center up)) (seM4Row2 (seM4LookAt eye center up)) = 0 ∧
    seV3Dot (seM4Row0 (seM4LookAt eye center up)) (seM4Row0 (seM4LookAt eye center up)) = 1 ∧
    seV3Dot (seM4Row1 (seM4LookAt eye center up)) (seM4Row1 (seM4LookAt eye center up)) = 1 ∧
    seV3Dot (seM4Row2 (seM4LookAt eye center up)) (seM4Row2 (seM4LookAt eye center up)) = 1 := by
  rw [seM4LookAt_row0, seM4LookAt_row1, seM4LookAt_row2]
  have hff : seV3Dot (seV3Normalize (seV3Subtract center eye))
      (seV3Normalize (seV3Subtract center eye)) = 1 :=
    seV3Normalize_dot_self _ h1
  have hss : seV3Dot (seV3Normalize (seV3Cross (seV3Normalize (seV3Subtract center eye)) up))
      (seV3Normalize (seV3Cross (seV3Normalize (seV3Subtract center eye)) up)) = 1 :=
    seV3Normalize_dot_self _ h2
  have hsf : seV3Dot (seV3Normalize (seV3Cross (seV3Normalize (seV3Subtract center eye)) up))
      (seV3Normalize (seV3Subtract center eye)) = 0 := by
    rw [seV3Normalize_dot_left, seV3Cross_dot_left, zero_div]
  refine ⟨seV3Dot_cross_self _ _, ?_, ?_, hss, ?_, ?_⟩
  · rw [seV3Dot_neg_right, hsf, neg_zero]
  · rw [seV3Dot_neg_right, seV3Cross_dot_right, neg_zero]
  · rw [seV3Cross_dot_cross, hss, hff, hsf]
    norm_num
  · rw [seV3Neg_dot_neg, hff]

/-- C10 witness: at eye (0,0,0), center (0,0,1), up (0,1,0) both
hypotheses hold concretely and the rows of the look-at matrix are an
orthonormal triple. -/
theorem claim_C10_witness :
    (seV3Subtract (seV3Assign 0 0 1) (seV3Assign 0 0 0) ≠ seV3Assign 0 0 0 ∧
     seV3Cross (seV3Normalize (seV3Subtract (seV3Assign 0 0 1) (seV3Assign 0 0 0)))
       (seV3Assign 0 1 0) ≠ seV3Assign 0 0 0) ∧
    (seV3Dot (seM4Row0 (seM4LookAt (seV3Assign 0 0 0) (seV3Assign 0 0 1) (seV3Assign 0 1 0)))
       (seM4Row1 (seM4LookAt (seV3Assign 0 0 0) (seV3Assign 0 0 1) (seV3Assign 0 1 0))) = 0 ∧
     seV3Dot (seM4Row0 (seM4LookAt (seV3Assign 0 0 0) (seV3Assign 0 0 1) (seV3Assign 0 1 0)))
       (seM4Row2 (seM4LookAt (seV3Assign 0 0 0) (seV3Assign 0 0 1) (seV3Assign 0 1 0))) = 0 ∧
     seV3Dot (seM4Row1 (seM4LookAt (seV3Assign 0 0 0) (seV3Assign 0 0 1) (seV3Assign 0 1 0)))
       (seM4Row2 (seM4LookAt (seV3Assign 0 0 0) (seV3Assign 0 0 1) (seV3Assign 0 1 0))) = 0 ∧
     seV3Dot (seM4Row0 (seM4LookAt (seV3Assign 0 0 0) (seV3Assign 0 0 1) (seV3Assign 0 1 0)))
       (seM4Row0 (seM4LookAt (seV3Assign 0 0 0) (seV3Assign 0 0 1) (seV3Assign 0 1 0))) = 1 ∧
     seV3Dot (seM4Row1 (seM4LookAt (seV3Assign 0 0 0) (seV3Assign 0 0 1) (seV3Assign 0 1 0)))
       (seM4Row1 (seM4LookAt (seV3Assign 0 0 0) (seV3Assign 0 0 1) (seV3Assign 0 1 0))) = 1 ∧
     seV3Dot (seM4Row2 (seM4LookAt (seV3Assign 0 0 0) (seV3Assign 0 0 1) (seV3Assign 0 1 0)))
       (seM4Row2 (seM4LookAt (seV3Assign 0 0 0) (seV3Assign 0 0 1) (seV3Assign 0 1 0))) = 1) := by
  have hw1 : seV3Subtract (seV3Assign 0 0 1) (seV3Assign 0 0 0) ≠ seV3Assign 0 0 0 := by
    simp [seV3Subtract, seV3Assign, seVec3.mk.injEq]
  have hw2 : seV3Cross (seV3Normalize (seV3Subtract (seV3Assign 0 0 1) (seV3Assign 0 0 0)))
      (seV3Assign 0 1 0) ≠ seV3Assign 0 0 0 := by
    simp [seV3Cross, seV3Normalize, seV3Length, seV3Subtract, seV3Assign, seVec3.mk.injEq]
  exact ⟨⟨hw1, hw2⟩,
    claim_C10_lookAt_orthonormal (seV3Assign 0 0 0) (seV3Assign 0 0 1) (seV3Assign 0 1 0) hw1 hw2⟩

end ThreeDMath
